import Mathlib

/-!
Verification of the reservation availability / status-transition engine of the
hotel-backend repository (`reservations/services/reservation_service.py`,
`reservations/serializers/reservation_serializer.py`,
`reservations/views/reservation_views.py`).

The embedding is shallow: MongoDB collections become Lean lists of documents,
Python `datetime` values become a calendar-day index paired with a
time-of-day tick count (microseconds, Python's datetime resolution), and each
`raise ValueError(...)` site becomes a constructor of an error type returned
through `Except`.  `bson.ObjectId(s)` raising `bson.errors.InvalidId` for a
string that is not 24 hexadecimal characters is modelled explicitly, because
`InvalidId` is *not* a `ValueError` and escapes the service's validation
taxonomy.
-/

namespace HotelBackend

/-- Python `datetime`/`timedelta` resolution: microseconds per day. -/
def ticksPerDay : Nat := 86400000000

/-- A Python `datetime`: calendar day index plus time of day in microsecond
ticks (`0 ≤ tod < ticksPerDay` for values produced by Python; the bound is
assumed where a proof needs it). -/
structure DateTime where
  day : Int
  tod : Nat
deriving DecidableEq, Repr

/-- Python datetime `<`: lexicographic on (day, time-of-day). -/
def DateTime.ltb (x y : DateTime) : Bool :=
  x.day < y.day || (x.day == y.day && x.tod < y.tod)

/-- Python datetime `<=`: lexicographic on (day, time-of-day). -/
def DateTime.leb (x y : DateTime) : Bool :=
  x.day < y.day || (x.day == y.day && x.tod ≤ y.tod)

/-- Python `dt.replace(hour=0, minute=0, second=0, microsecond=0)`. -/
def midnightOf (d : DateTime) : DateTime := ⟨d.day, 0⟩

/-- Python `dt + timedelta(days=n)`. -/
def addDays (d : DateTime) (n : Int) : DateTime := ⟨d.day + n, d.tod⟩

/-- Python `(check_out - check_in).days`: the language subtracts the two datetimes exactly
and `timedelta.days` floors the total tick difference towards minus infinity
(`Int.fdiv`).  This is the expression at `reservation_service.py:68` and
`:127`. -/
def nightsOf (checkIn checkOut : DateTime) : Int :=
  Int.fdiv ((checkOut.day - checkIn.day) * (ticksPerDay : Int)
      + ((checkOut.tod : Int) - (checkIn.tod : Int))) (ticksPerDay : Int)

/-- Validity domain of `bson.ObjectId(s)`: it accepts exactly a 24-character hexadecimal string;
anything else raises `bson.errors.InvalidId`. -/
def isValidObjectId (s : String) : Bool :=
  s.length == 24 && s.toList.all fun c =>
    c.isDigit || ('a' ≤ c && c ≤ 'f') || ('A' ≤ c && c ≤ 'F')

/-- One constructor per distinct failure site of the reservation subsystem.
All constructors except `bsonInvalidId` correspond to `raise ValueError(...)`
(the service's recoverable validation taxonomy) or to a serializer/view 400;
`bsonInvalidId` models `bson.errors.InvalidId`, which is NOT a `ValueError`
and is caught only by the views' generic `except Exception` handler (HTTP
500). -/
inductive Err where
  | hotelNotFound
  | roomNotFound
  | checkInInPast
  | checkOutNotAfterCheckIn
  | checkInTooFarInFuture
  | roomNotAvailable
  | capacityExceeded
  | reservationNotFound
  | noPermission
  | guestsOnlyCancel
  | ownersOnlyConfirmRejectComplete
  | invalidTransition
  | bsonInvalidId
  | missingCancellationReason
deriving DecidableEq, Repr

/-- A stored reservation document (the fields the verified operations read or
write).  `storageKey` is the string form of the Mongo `_id`; `reservationId`
is the UUID field from `ReservationSchema.get_default_document`. -/
structure Reservation where
  storageKey : String
  reservationId : String
  hotelId : String
  roomId : String
  guestId : String
  ownerId : String
  checkIn : DateTime
  checkOut : DateTime
  nights : Int
  numberOfGuests : Nat
  pricePerNight : Int
  totalPrice : Int
  currency : String
  specialRequests : String
  status : String
  paymentStatus : String
  cancellationReason : Option String
  cancelledAt : Option DateTime
  confirmedAt : Option DateTime
  createdAt : DateTime
  updatedAt : DateTime
deriving DecidableEq, Repr

/-- A room sub-document of a hotel (`capacity` and `price_per_night` as read
by the service via `room.get('capacity', 1)` / `room.get('price_per_night',
0.0)`). -/
structure Room where
  roomId : String
  capacity : Nat
  pricePerNight : Int
deriving DecidableEq, Repr

/-- A hotel document: the fields the reservation service reads. -/
structure Hotel where
  hotelId : String
  ownerId : String
  rooms : List Room
deriving DecidableEq, Repr

/-- Model of `_get_hotel` (`reservation_service.py:386`): `find_one({'_id':
ObjectId(hotel_id)})` wrapped in `try/except InvalidId: return None`. -/
def getHotel (hotels : List Hotel) (hotelId : String) : Option Hotel :=
  if !isValidObjectId hotelId then none
  else hotels.find? fun h => h.hotelId == hotelId

/-- Model of `_get_room` (`reservation_service.py:393`): linear scan of the hotel's
embedded room list for a matching `room_id`. -/
def getRoom (hotel : Hotel) (roomId : String) : Option Room :=
  hotel.rooms.find? fun room => room.roomId == roomId

/-- The `$or` body of the availability query (`reservation_service.py:337-344`)
against one stored reservation `[a, b)`:
`{check_in: {$lte: ci}, check_out: {$gt: ci}}` or
`{check_in: {$lt: co}, check_out: {$gte: co}}` or
`{check_in: {$gte: ci}, check_out: {$lte: co}}`. -/
def mongoConflict (a b ci co : DateTime) : Bool :=
  (a.leb ci && ci.ltb b) || (a.ltb co && co.leb b) || (ci.leb a && b.leb co)

/-- The full availability query filter (`reservation_service.py:333-349`): same
hotel and room, status `$in ['pending', 'confirmed']`, the three-way date
`$or`, and the optional `reservation_id: {$ne: exclude}` clause. -/
def conflictsQuery (r : Reservation) (hotelId roomId : String)
    (ci co : DateTime) (excludeReservationId : Option String) : Bool :=
  r.hotelId == hotelId && r.roomId == roomId
    && (r.status == "pending" || r.status == "confirmed")
    && mongoConflict r.checkIn r.checkOut ci co
    && (match excludeReservationId with
        | some e => r.reservationId != e
        | none => true)

/-- Model of `check_availability` (`reservation_service.py:317-352`):
`count_documents(query) == 0`. -/
def check_availability (store : List Reservation) (hotelId roomId : String)
    (ci co : DateTime) (excludeReservationId : Option String) : Bool :=
  store.countP (fun r => conflictsQuery r hotelId roomId ci co excludeReservationId) == 0

/-- Reference overlap test, stated from the spec's words (`a < check_out AND
check_in < b`); used only to compare with the implemented query (claim C2). -/
def overlapTestSpec (a b ci co : DateTime) : Bool :=
  a.ltb co && ci.ltb b

/-- Model of `_validate_dates` (`reservation_service.py:401-413`): reject a
midnight-normalized check-in before today, a check-out not after the
check-in, or a midnight-normalized check-in after today + 365 days, in that
order. -/
def validate_dates (now checkIn checkOut : DateTime) : Except Err Unit :=
  let nowMid := midnightOf now
  let checkInMid := midnightOf checkIn
  if checkInMid.ltb nowMid then .error .checkInInPast
  else if checkOut.leb checkIn then .error .checkOutNotAfterCheckIn
  else if (addDays nowMid 365).ltb checkInMid then .error .checkInTooFarInFuture
  else .ok ()

/-- Table of `_validate_status_transition` (`reservation_service.py:417-423`),
with the `dict.get(current_status, [])` default for unknown statuses. -/
def validTransitions (current : String) : List String :=
  if current == "pending" then ["confirmed", "cancelled", "rejected"]
  else if current == "confirmed" then ["cancelled", "completed"]
  else if current == "cancelled" then []
  else if current == "completed" then []
  else if current == "rejected" then []
  else []

/-- The reservation lookup shared by `update_reservation_status`
(`reservation_service.py:270-272`): `find_one` by `_id`, then `find_one` by
the `reservation_id` field.  Only meaningful after `ObjectId(reservation_id)`
succeeded. -/
def lookupReservation (store : List Reservation) (rid : String) : Option Reservation :=
  match store.find? (fun r => r.storageKey == rid) with
  | some r => some r
  | none => store.find? (fun r => r.reservationId == rid)

/-- Model of `get_reservation_by_id` (`reservation_service.py:178-199`): unlike
`update_reservation_status`, it wraps the `ObjectId` construction in
`try/except InvalidId` and falls back to the `reservation_id` lookup. -/
def get_reservation_by_id (store : List Reservation) (reservationId : String) :
    Option Reservation :=
  if isValidObjectId reservationId then lookupReservation store reservationId
  else store.find? fun r => r.reservationId == reservationId

/-- The tail of `update_reservation_status` (`reservation_service.py:291-315`):
transition-table check, then `$set` of `status`, `updated_at`, and the
conditional `cancelled_at` / `cancellation_reason` (only when the reason is
truthy, i.e. a non-empty string) / `confirmed_at`, followed by re-reading the
updated document.  `transitionedDoc` is the `$set` payload applied to the
matched document; `applyTransitionUpdate` is the transition-table check plus
the write. -/
def transitionedDoc (r : Reservation) (newStatus : String)
    (cancellationReason : Option String) (now : DateTime) : Reservation :=
  { r with
    status := newStatus
    updatedAt := now
    cancelledAt := if newStatus == "cancelled" then some now else r.cancelledAt
    cancellationReason :=
      if newStatus == "cancelled" then
        match cancellationReason with
        | some s => if s == "" then r.cancellationReason else some s
        | none => r.cancellationReason
      else r.cancellationReason
    confirmedAt := if newStatus == "confirmed" then some now else r.confirmedAt }

def applyTransitionUpdate (store : List Reservation) (r : Reservation)
    (newStatus : String) (cancellationReason : Option String) (now : DateTime) :
    Except Err (List Reservation × Reservation) :=
  if !((validTransitions r.status).contains newStatus) then .error .invalidTransition
  else
    let r' := transitionedDoc r newStatus cancellationReason now
    .ok (store.map (fun x => if x.storageKey == r.storageKey then r' else x), r')

/-- Model of `update_reservation_status` (`reservation_service.py:251-315`).  Note the
first line of the body: `ObjectId(reservation_id)` is NOT guarded, so a
reservation id that is not a 24-hex string raises `bson.errors.InvalidId`
before any lookup happens, modelled by `Err.bsonInvalidId`. -/
def update_reservation_status (store : List Reservation)
    (reservationId newStatus userId userType : String)
    (cancellationReason : Option String) (now : DateTime) :
    Except Err (List Reservation × Reservation) :=
  if !isValidObjectId reservationId then .error .bsonInvalidId
  else
    match lookupReservation store reservationId with
    | none => .error .reservationNotFound
    | some r =>
      if userType == "guest" then
        if r.guestId != userId then .error .noPermission
        else if !(["cancelled"].contains newStatus) then .error .guestsOnlyCancel
        else applyTransitionUpdate store r newStatus cancellationReason now
      else if userType == "owner" then
        if r.ownerId != userId then .error .noPermission
        else if !(["confirmed", "rejected", "completed"].contains newStatus) then
          .error .ownersOnlyConfirmRejectComplete
        else applyTransitionUpdate store r newStatus cancellationReason now
      else applyTransitionUpdate store r newStatus cancellationReason now

/-- The input fields of a creation request after serializer validation
(`currency` is only read by the checkout path, via
`reservation_data.get('currency', 'USD')`). -/
structure CreateInput where
  hotelId : String
  roomId : String
  checkIn : DateTime
  checkOut : DateTime
  numberOfGuests : Nat
  specialRequests : String
  currency : String
deriving DecidableEq, Repr

/-- Model of `create_reservation` (`reservation_service.py:26-97`).  `newKey` and
`newReservationId` stand for the store-generated `_id` and the
`uuid.uuid4()` default of `ReservationSchema.get_default_document`. -/
def create_reservation (hotels : List Hotel) (store : List Reservation)
    (now : DateTime) (input : CreateInput) (guestId newKey newReservationId : String) :
    Except Err (List Reservation × Reservation) :=
  match getHotel hotels input.hotelId with
  | none => .error .hotelNotFound
  | some hotel =>
    match getRoom hotel input.roomId with
    | none => .error .roomNotFound
    | some room =>
      match validate_dates now input.checkIn input.checkOut with
      | .error e => .error e
      | .ok _ =>
        if !check_availability store input.hotelId input.roomId
            input.checkIn input.checkOut none then
          .error .roomNotAvailable
        else if input.numberOfGuests > room.capacity then .error .capacityExceeded
        else
          let nights := nightsOf input.checkIn input.checkOut
          let price := room.pricePerNight
          let newRes : Reservation :=
            { storageKey := newKey
              reservationId := newReservationId
              hotelId := input.hotelId
              roomId := input.roomId
              guestId := guestId
              ownerId := hotel.ownerId
              checkIn := input.checkIn
              checkOut := input.checkOut
              nights := nights
              numberOfGuests := input.numberOfGuests
              pricePerNight := price
              totalPrice := nights * price
              currency := "USD"
              specialRequests := input.specialRequests
              status := "pending"
              paymentStatus := "pending"
              cancellationReason := none
              cancelledAt := none
              confirmedAt := none
              createdAt := now
              updatedAt := now }
          .ok (store ++ [newRes], newRes)

/-- The computed-data bundle returned by `validate_and_compute_for_checkout`
(`reservation_service.py:130-143`). -/
structure ComputedData where
  hotelId : String
  roomId : String
  checkIn : DateTime
  checkOut : DateTime
  nights : Int
  numberOfGuests : Nat
  specialRequests : String
  pricePerNight : Int
  totalPrice : Int
  currency : String
  ownerId : String
deriving DecidableEq, Repr

/-- Model of `validate_and_compute_for_checkout` (`reservation_service.py:99-143`):
every Path-A validation, no persistence. -/
def validate_and_compute_for_checkout (hotels : List Hotel)
    (store : List Reservation) (now : DateTime) (input : CreateInput) :
    Except Err ComputedData :=
  match getHotel hotels input.hotelId with
  | none => .error .hotelNotFound
  | some hotel =>
    match getRoom hotel input.roomId with
    | none => .error .roomNotFound
    | some room =>
      match validate_dates now input.checkIn input.checkOut with
      | .error e => .error e
      | .ok _ =>
        if !check_availability store input.hotelId input.roomId
            input.checkIn input.checkOut none then
          .error .roomNotAvailable
        else if input.numberOfGuests > room.capacity then .error .capacityExceeded
        else
          let nights := nightsOf input.checkIn input.checkOut
          let price := room.pricePerNight
          .ok
            { hotelId := input.hotelId
              roomId := input.roomId
              checkIn := input.checkIn
              checkOut := input.checkOut
              nights := nights
              numberOfGuests := input.numberOfGuests
              specialRequests := input.specialRequests
              pricePerNight := price
              totalPrice := nights * price
              currency := input.currency
              ownerId := hotel.ownerId }

/-- Model of `create_reservation_after_payment` (`reservation_service.py:145-176`):
unconditional insert of the computed data with `status = 'pending'` and
`payment_status = 'paid'` baked in. -/
def create_reservation_after_payment (store : List Reservation)
    (computed : ComputedData) (guestId reservationId newKey : String)
    (now : DateTime) : List Reservation × Reservation :=
  let doc : Reservation :=
    { storageKey := newKey
      reservationId := reservationId
      hotelId := computed.hotelId
      roomId := computed.roomId
      guestId := guestId
      ownerId := computed.ownerId
      checkIn := computed.checkIn
      checkOut := computed.checkOut
      nights := computed.nights
      numberOfGuests := computed.numberOfGuests
      pricePerNight := computed.pricePerNight
      totalPrice := computed.totalPrice
      currency := computed.currency
      specialRequests := computed.specialRequests
      status := "pending"
      paymentStatus := "paid"
      cancellationReason := none
      cancelledAt := none
      confirmedAt := none
      createdAt := now
      updatedAt := now }
  (store ++ [doc], doc)

/-- The cancel endpoint (`reservation_views.py:170-210`): missing reason
defaults to `''`, an empty reason is rejected with a 400 before the service
runs, otherwise the service is called with `new_status='cancelled'`,
`user_type='guest'`. -/
def cancel_reservation_endpoint (store : List Reservation)
    (pk userId : String) (cancellationReason : String) (now : DateTime) :
    Except Err (List Reservation × Reservation) :=
  if cancellationReason == "" then .error .missingCancellationReason
  else update_reservation_status store pk "cancelled" userId "guest"
    (some cancellationReason) now

/-- Model of `ReservationUpdateSerializer.validate` (`reservation_serializer.py:177-183`):
fails exactly when the requested status is `cancelled` and the reason is
missing or blank (Python falsiness of `''`/absent). -/
def reservationUpdateSerializerValidate (status : String)
    (cancellationReason : Option String) : Bool :=
  !(status == "cancelled" &&
    (match cancellationReason with
     | none => true
     | some s => s == ""))

/-- The condition under which the role/ownership gate of
`update_reservation_status` (`reservation_service.py:277-289`) raises no
error: a `guest` must own the booking and target only `cancelled`; an
`owner` must own the hotel and target only `confirmed`/`rejected`/
`completed`; any other `user_type` is not checked at all. -/
def permissionGatePasses (r : Reservation) (newStatus userId userType : String) : Bool :=
  if userType == "guest" then
    r.guestId == userId && ["cancelled"].contains newStatus
  else if userType == "owner" then
    r.ownerId == userId && ["confirmed", "rejected", "completed"].contains newStatus
  else true

/-- Shorthand for concrete datetimes in witnesses. -/
def dt (d : Int) (t : Nat) : DateTime := ⟨d, t⟩

/-! ### Order lemmas for the lexicographic datetime comparisons -/

theorem DateTime.ltb_iff (x y : DateTime) :
    DateTime.ltb x y = true ↔ (x.day < y.day ∨ (x.day = y.day ∧ x.tod < y.tod)) := by
  simp [DateTime.ltb]

theorem DateTime.leb_iff (x y : DateTime) :
    DateTime.leb x y = true ↔ (x.day < y.day ∨ (x.day = y.day ∧ x.tod ≤ y.tod)) := by
  simp [DateTime.leb]

/-- If the candidate range strictly overlaps a stored range in the standard
half-open sense, the implemented three-way query matches it (no
nondegeneracy needed in this direction). -/
theorem overlap_implies_mongoConflict (a b ci co : DateTime)
    (h1 : a.ltb co = true) (h2 : ci.ltb b = true) :
    mongoConflict a b ci co = true := by
  simp only [mongoConflict, Bool.or_eq_true, Bool.and_eq_true,
    DateTime.ltb_iff, DateTime.leb_iff] at *
  omega

/-- C2: for every existing interval `[a, b)` with `a < b` and candidate
`[check_in, check_out)` with `check_in < check_out`, the three-way
disjunction of the availability query — `(a <= ci and b > ci) or
(a < co and b >= co) or (a >= ci and b <= co)` — agrees with the standard
half-open overlap test `a < co and ci < b`. -/
theorem c2_three_way_query_equals_overlap (a b ci co : DateTime)
    (hab : a.ltb b = true) (hcand : ci.ltb co = true) :
    mongoConflict a b ci co = overlapTestSpec a b ci co := by
  rw [Bool.eq_iff_iff]
  simp only [mongoConflict, overlapTestSpec, Bool.or_eq_true, Bool.and_eq_true,
    DateTime.ltb_iff, DateTime.leb_iff] at *
  omega

/-- Witness for C2 at the concrete intervals `[0, 2)` and `[1, 3)`. -/
theorem c2_three_way_query_equals_overlap_witness :
    DateTime.ltb (dt 0 0) (dt 2 0) = true ∧ DateTime.ltb (dt 1 0) (dt 3 0) = true ∧
    mongoConflict (dt 0 0) (dt 2 0) (dt 1 0) (dt 3 0) =
      overlapTestSpec (dt 0 0) (dt 2 0) (dt 1 0) (dt 3 0) :=
  ⟨by decide, by decide,
    c2_three_way_query_equals_overlap (dt 0 0) (dt 2 0) (dt 1 0) (dt 3 0)
      (by decide) (by decide)⟩

/-- C1: assuming every stored reservation has a nondegenerate range and the
candidate range is nondegenerate, `check_availability` returns true iff no
stored reservation on the same hotel and room with status `pending` or
`confirmed` intersects the candidate half-open range; any such intersecting
reservation forces a `false` answer; and a reservation whose status is
`cancelled`, `rejected`, or `completed` never changes the answer. -/
theorem c1_availability_blocks_overlaps (store : List Reservation)
    (h room : String) (ci co : DateTime) (r : Reservation)
    (hwf : ∀ x ∈ store, x.checkIn.ltb x.checkOut = true)
    (hcand : ci.ltb co = true) :
    (check_availability store h room ci co none = true ↔
      ∀ x ∈ store, x.hotelId = h → x.roomId = room →
        (x.status = "pending" ∨ x.status = "confirmed") →
        ¬(x.checkIn.ltb co = true ∧ ci.ltb x.checkOut = true))
    ∧ (r ∈ store → r.hotelId = h → r.roomId = room →
        (r.status = "pending" ∨ r.status = "confirmed") →
        r.checkIn.ltb co = true → ci.ltb r.checkOut = true →
        check_availability store h room ci co none = false)
    ∧ ((r.status = "cancelled" ∨ r.status = "rejected" ∨ r.status = "completed") →
        check_availability (r :: store) h room ci co none =
          check_availability store h room ci co none) := by
  have hq : ∀ x ∈ store, conflictsQuery x h room ci co none = true ↔
      (x.hotelId = h ∧ x.roomId = room ∧
        (x.status = "pending" ∨ x.status = "confirmed") ∧
        (x.checkIn.ltb co = true ∧ ci.ltb x.checkOut = true)) := by
    intro x hx
    have hx' := hwf x hx
    have hconf := c2_three_way_query_equals_overlap x.checkIn x.checkOut ci co hx' hcand
    simp only [conflictsQuery, Bool.and_eq_true, Bool.or_eq_true, beq_iff_eq, hconf,
      overlapTestSpec]
    tauto
  refine ⟨?_, ?_, ?_⟩
  · simp only [check_availability, beq_iff_eq, List.countP_eq_zero]
    constructor
    · intro hall x hx h1 h2 h3 h4
      exact absurd ((hq x hx).mpr ⟨h1, h2, h3, h4⟩) (by simpa using hall x hx)
    · intro hall x hx
      simp only [Bool.not_eq_true]
      rcases hb : conflictsQuery x h room ci co none with _ | _
      · rfl
      · rcases (hq x hx).mp hb with ⟨h1, h2, h3, h4⟩
        exact absurd h4 (hall x hx h1 h2 h3)
  · intro hmem h1 h2 h3 h4 h5
    rcases hb : check_availability store h room ci co none with _ | _
    · rfl
    · exfalso
      have := ((by
        simpa only [check_availability, beq_iff_eq, List.countP_eq_zero] using hb :
          ∀ x ∈ store, ¬(conflictsQuery x h room ci co none = true))) r hmem
      exact this ((hq r hmem).mpr ⟨h1, h2, h3, ⟨h4, h5⟩⟩)
  · intro hst
    have hc : conflictsQuery r h room ci co none = false := by
      rcases hst with hst | hst | hst <;>
        simp [conflictsQuery, hst]
    simp [check_availability, List.countP_cons, hc]

/-- A concrete pending reservation used by witnesses (storage key and hotel
id are 24-hex strings as Mongo produces). -/
def sampleRes : Reservation :=
  { storageKey := "507f1f77bcf86cd799439011"
    reservationId := "11111111-1111-1111-1111-111111111111"
    hotelId := "507f191e810c19729de860ea"
    roomId := "room-1"
    guestId := "guest-1"
    ownerId := "owner-1"
    checkIn := dt 10 0
    checkOut := dt 13 0
    nights := 3
    numberOfGuests := 2
    pricePerNight := 100
    totalPrice := 300
    currency := "USD"
    specialRequests := ""
    status := "pending"
    paymentStatus := "pending"
    cancellationReason := none
    cancelledAt := none
    confirmedAt := none
    createdAt := dt 0 0
    updatedAt := dt 0 0 }

/-- A concrete room and hotel for creation-path witnesses. -/
def sampleRoom : Room := { roomId := "room-1", capacity := 2, pricePerNight := 100 }

def sampleHotel : Hotel :=
  { hotelId := "507f191e810c19729de860ea", ownerId := "owner-1", rooms := [sampleRoom] }

/-- Witness for C1: with a pending reservation on days `[10, 13)` stored, the
overlapping candidate `[12, 15)` is reported unavailable. -/
theorem c1_availability_blocks_overlaps_witness :
    check_availability [sampleRes] "507f191e810c19729de860ea" "room-1"
      (dt 12 0) (dt 15 0) none = false :=
  (c1_availability_blocks_overlaps [sampleRes] "507f191e810c19729de860ea" "room-1"
      (dt 12 0) (dt 15 0) sampleRes (by decide) (by decide)).2.1
    (by simp) (by decide) (by decide) (by decide) (by decide) (by decide)

/-! ### Reduction lemmas for `update_reservation_status` -/

/-- Once the id parses, the lookup resolves, and the role/ownership gate
raises nothing, `update_reservation_status` is exactly the transition-table
check plus the `$set` update. -/
theorem update_eq_applyTransition (store : List Reservation)
    (pk ns uid ut : String) (reason : Option String) (now : DateTime) (r : Reservation)
    (hvalid : isValidObjectId pk = true)
    (hfound : lookupReservation store pk = some r)
    (hgate : permissionGatePasses r ns uid ut = true) :
    update_reservation_status store pk ns uid ut reason now =
      applyTransitionUpdate store r ns reason now := by
  by_cases hg : ut = "guest"
  · subst hg
    simp [permissionGatePasses] at hgate
    obtain ⟨h1, h2⟩ := hgate
    simp [update_reservation_status, hvalid, hfound, h1, h2]
  · by_cases ho : ut = "owner"
    · subst ho
      simp [permissionGatePasses] at hgate
      obtain ⟨h1, h2⟩ := hgate
      rcases h2 with h2 | h2 | h2 <;>
        simp [update_reservation_status, hvalid, hfound, hg, h1, h2]
    · simp [update_reservation_status, hvalid, hfound, hg, ho]

/-- A transition outside the table is rejected before any write. -/
theorem applyTransition_not_in_table (store : List Reservation) (r : Reservation)
    (ns : String) (reason : Option String) (now : DateTime)
    (h : (validTransitions r.status).contains ns = false) :
    applyTransitionUpdate store r ns reason now = .error .invalidTransition := by
  have h' : ns ∉ validTransitions r.status := by simpa using h
  simp [applyTransitionUpdate, h']

/-- A transition inside the table succeeds and writes the new status. -/
theorem applyTransition_in_table (store : List Reservation) (r : Reservation)
    (ns : String) (reason : Option String) (now : DateTime)
    (h : (validTransitions r.status).contains ns = true) :
    applyTransitionUpdate store r ns reason now =
      .ok (store.map (fun x => if x.storageKey == r.storageKey then
              transitionedDoc r ns reason now else x),
           transitionedDoc r ns reason now) := by
  have h' : ns ∈ validTransitions r.status := by simpa using h
  simp [applyTransitionUpdate, h']

/-- A successful write implies the transition was in the table. -/
theorem applyTransition_ok_implies (store : List Reservation) (r : Reservation)
    (ns : String) (reason : Option String) (now : DateTime)
    (store' : List Reservation) (r' : Reservation)
    (hok : applyTransitionUpdate store r ns reason now = .ok (store', r')) :
    (validTransitions r.status).contains ns = true := by
  by_cases h : (validTransitions r.status).contains ns = true
  · exact h
  · rw [applyTransition_not_in_table store r ns reason now (by simpa using h)] at hok
    simp at hok

/-- C3: once the reservation is found and the role/ownership gate raises no
error, a status change is persisted exactly when `(current, new)` is in the
fixed table (pending → confirmed/cancelled/rejected, confirmed →
cancelled/completed); any other pair — including every transition out of
`cancelled`, `completed`, or `rejected`, hence a second cancel of an
already-cancelled reservation — fails with the invalid-transition validation
error, raised before `update_one` runs, so nothing is written; and for every
call whatsoever, a successful update implies the pair was in the table. -/
theorem c3_transition_table_governs_updates (store : List Reservation)
    (pk ns uid ut : String) (reason : Option String) (now : DateTime) (r : Reservation)
    (hvalid : isValidObjectId pk = true)
    (hfound : lookupReservation store pk = some r) :
    (permissionGatePasses r ns uid ut = true →
      ((validTransitions r.status).contains ns = false →
        update_reservation_status store pk ns uid ut reason now = .error .invalidTransition)
      ∧ ((validTransitions r.status).contains ns = true →
        ∃ store' r', update_reservation_status store pk ns uid ut reason now = .ok (store', r')
          ∧ r'.status = ns))
    ∧ (∀ store' r', update_reservation_status store pk ns uid ut reason now = .ok (store', r') →
        (validTransitions r.status).contains ns = true) := by
  constructor
  · intro hgate
    rw [update_eq_applyTransition store pk ns uid ut reason now r hvalid hfound hgate]
    exact ⟨applyTransition_not_in_table store r ns reason now,
      fun h => ⟨_, _, applyTransition_in_table store r ns reason now h, rfl⟩⟩
  · intro store' r' hok
    by_cases hg : ut = "guest"
    · subst hg
      by_cases h1 : r.guestId = uid
      · by_cases h2 : ns = "cancelled"
        · rw [update_eq_applyTransition store pk ns uid "guest" reason now r hvalid hfound
            (by simp [permissionGatePasses, h1, h2])] at hok
          exact applyTransition_ok_implies store r ns reason now store' r' hok
        · simp [update_reservation_status, hvalid, hfound, h1, h2] at hok
      · simp [update_reservation_status, hvalid, hfound, h1] at hok
    · by_cases ho : ut = "owner"
      · subst ho
        by_cases h1 : r.ownerId = uid
        · by_cases h2 : ns = "confirmed" ∨ ns = "rejected" ∨ ns = "completed"
          · rw [update_eq_applyTransition store pk ns uid "owner" reason now r hvalid hfound
              (by simp [permissionGatePasses, h1]; tauto)] at hok
            exact applyTransition_ok_implies store r ns reason now store' r' hok
          · push_neg at h2
            simp [update_reservation_status, hvalid, hfound, hg, h1,
              h2.1, h2.2.1, h2.2.2] at hok
        · simp [update_reservation_status, hvalid, hfound, hg, h1] at hok
      · rw [update_eq_applyTransition store pk ns uid ut reason now r hvalid hfound
          (by simp [permissionGatePasses, hg, ho])] at hok
        exact applyTransition_ok_implies store r ns reason now store' r' hok

/-- Witness for C3: the owner confirms a pending reservation and the listed
transition `pending → confirmed` succeeds. -/
theorem c3_transition_table_governs_updates_witness :
    ∃ store' r', update_reservation_status [sampleRes] "507f1f77bcf86cd799439011"
        "confirmed" "owner-1" "owner" none (dt 20 0) = .ok (store', r')
      ∧ r'.status = "confirmed" :=
  ((c3_transition_table_governs_updates [sampleRes] "507f1f77bcf86cd799439011"
      "confirmed" "owner-1" "owner" none (dt 20 0) sampleRes
      (by decide) (by decide)).1 (by decide)).2 (by decide)

/-- C5: a guest caller is rejected unless the reservation's `guest_id`
matches and the requested status is exactly `cancelled`; an owner caller is
rejected unless the `owner_id` matches and the requested status is one of
`confirmed`, `rejected`, `completed`; consequently a guest caller never
achieves a successful move to `confirmed`, `completed`, or `rejected`. -/
theorem c5_actor_role_gating (store : List Reservation)
    (pk ns uid : String) (reason : Option String) (now : DateTime) (r : Reservation)
    (hvalid : isValidObjectId pk = true)
    (hfound : lookupReservation store pk = some r) :
    (r.guestId ≠ uid →
      update_reservation_status store pk ns uid "guest" reason now = .error .noPermission)
    ∧ (r.guestId = uid → ns ≠ "cancelled" →
      update_reservation_status store pk ns uid "guest" reason now = .error .guestsOnlyCancel)
    ∧ (r.ownerId ≠ uid →
      update_reservation_status store pk ns uid "owner" reason now = .error .noPermission)
    ∧ (r.ownerId = uid → ns ≠ "confirmed" → ns ≠ "rejected" → ns ≠ "completed" →
      update_reservation_status store pk ns uid "owner" reason now =
        .error .ownersOnlyConfirmRejectComplete)
    ∧ (ns = "confirmed" ∨ ns = "completed" ∨ ns = "rejected" →
      ∀ store' r', update_reservation_status store pk ns uid "guest" reason now ≠
        .ok (store', r')) := by
  refine ⟨?_, ?_, ?_, ?_, ?_⟩
  · intro h
    simp [update_reservation_status, hvalid, hfound, h]
  · intro h1 h2
    simp [update_reservation_status, hvalid, hfound, h1, h2]
  · intro h
    simp [update_reservation_status, hvalid, hfound, h]
  · intro h1 h2 h3 h4
    simp [update_reservation_status, hvalid, hfound, h1, h2, h3, h4]
  · intro hns store' r' hok
    have h2 : ns ≠ "cancelled" := by rcases hns with h | h | h <;> simp [h]
    by_cases h1 : r.guestId = uid
    · simp [update_reservation_status, hvalid, hfound, h1, h2] at hok
    · simp [update_reservation_status, hvalid, hfound, h1] at hok

/-- Witness for C5: a guest asking for `confirmed` on their own reservation
is rejected with the guests-only-cancel error. -/
theorem c5_actor_role_gating_witness :
    update_reservation_status [sampleRes] "507f1f77bcf86cd799439011"
      "confirmed" "guest-1" "guest" none (dt 20 0) = .error .guestsOnlyCancel :=
  (c5_actor_role_gating [sampleRes] "507f1f77bcf86cd799439011" "confirmed" "guest-1"
      none (dt 20 0) sampleRes (by decide) (by decide)).2.1 (by decide) (by decide)

/-- C10: when `user_type` is neither `guest` nor `owner`, no ownership or
role check runs: the outcome does not depend on the acting user id, the only
possible errors are the id-parse failure, not-found, and invalid-transition
(never a permission error), and on a resolved lookup success is decided by
the transition table alone. -/
theorem c10_no_role_check_for_other_user_types (store : List Reservation)
    (pk ns uid uid2 ut : String) (reason : Option String) (now : DateTime)
    (hg : ut ≠ "guest") (ho : ut ≠ "owner") :
    (update_reservation_status store pk ns uid ut reason now =
      update_reservation_status store pk ns uid2 ut reason now)
    ∧ (∀ e, update_reservation_status store pk ns uid ut reason now = .error e →
        e = .bsonInvalidId ∨ e = .reservationNotFound ∨ e = .invalidTransition)
    ∧ (∀ r, lookupReservation store pk = some r → isValidObjectId pk = true →
        ((∃ store' r', update_reservation_status store pk ns uid ut reason now =
            .ok (store', r'))
          ↔ (validTransitions r.status).contains ns = true)) := by
  by_cases hvalid : isValidObjectId pk = true
  · rcases hlook : lookupReservation store pk with _ | r
    · have h1 : ∀ u, update_reservation_status store pk ns u ut reason now =
          .error .reservationNotFound := by
        intro u
        simp [update_reservation_status, hvalid, hlook]
      refine ⟨by rw [h1, h1], ?_, ?_⟩
      · intro e he
        rw [h1] at he
        injection he with he
        exact Or.inr (Or.inl he.symm)
      · intro r hr
        cases hr
    · have h1 : ∀ u, update_reservation_status store pk ns u ut reason now =
          applyTransitionUpdate store r ns reason now := fun u =>
        update_eq_applyTransition store pk ns u ut reason now r hvalid hlook
          (by simp [permissionGatePasses, hg, ho])
      refine ⟨by rw [h1, h1], ?_, ?_⟩
      · intro e he
        rw [h1] at he
        by_cases hc : (validTransitions r.status).contains ns = true
        · rw [applyTransition_in_table store r ns reason now hc] at he
          cases he
        · rw [applyTransition_not_in_table store r ns reason now (by simpa using hc)] at he
          injection he with he
          exact Or.inr (Or.inr he.symm)
      · intro r2 hr2 _
        injection hr2 with hr2
        subst hr2
        rw [h1]
        constructor
        · rintro ⟨st', r', hok⟩
          exact applyTransition_ok_implies store r ns reason now st' r' hok
        · intro hc
          exact ⟨_, _, applyTransition_in_table store r ns reason now hc⟩
  · have hv : isValidObjectId pk = false := by simpa using hvalid
    have h1 : ∀ u, update_reservation_status store pk ns u ut reason now =
        .error .bsonInvalidId := by
      intro u
      simp [update_reservation_status, hv]
    refine ⟨by rw [h1, h1], ?_, ?_⟩
    · intro e he
      rw [h1] at he
      injection he with he
      exact Or.inl he.symm
    · intro r _ hvt
      rw [hvt] at hv
      cases hv

/-- Witness for C10: with `user_type = 'admin'`, two unrelated actor ids get
the same outcome on the sample reservation. -/
theorem c10_no_role_check_for_other_user_types_witness :
    update_reservation_status [sampleRes] "507f1f77bcf86cd799439011"
        "confirmed" "someone-else" "admin" none (dt 20 0) =
      update_reservation_status [sampleRes] "507f1f77bcf86cd799439011"
        "confirmed" "yet-another" "admin" none (dt 20 0) :=
  (c10_no_role_check_for_other_user_types [sampleRes] "507f1f77bcf86cd799439011"
      "confirmed" "someone-else" "yet-another" "admin" none (dt 20 0)
      (by decide) (by decide)).1

/-- C6: the cancel endpoint rejects an empty or missing reason before the
service runs, and `ReservationUpdateSerializer.validate` likewise fails for
`cancelled` with a missing or blank reason; cancelling with a non-empty
reason on the caller's own cancellable reservation succeeds, sets
`cancelled_at` to the current time, and stores the reason verbatim. -/
theorem c6_cancellation_reason_rules (store : List Reservation)
    (pk uid reason : String) (now : DateTime) (r : Reservation) :
    cancel_reservation_endpoint store pk uid "" now = .error .missingCancellationReason
    ∧ reservationUpdateSerializerValidate "cancelled" none = false
    ∧ reservationUpdateSerializerValidate "cancelled" (some "") = false
    ∧ (reason ≠ "" → isValidObjectId pk = true → lookupReservation store pk = some r →
        r.guestId = uid → (validTransitions r.status).contains "cancelled" = true →
        ∃ store' r', cancel_reservation_endpoint store pk uid reason now = .ok (store', r')
          ∧ r'.status = "cancelled"
          ∧ r'.cancelledAt = some now
          ∧ r'.cancellationReason = some reason) := by
  refine ⟨by simp [cancel_reservation_endpoint], by decide, by decide, ?_⟩
  intro hr hvalid hfound hgid htr
  have hne : (reason == "") = false := by simpa using hr
  have hch : cancel_reservation_endpoint store pk uid reason now =
      update_reservation_status store pk "cancelled" uid "guest" (some reason) now := by
    simp [cancel_reservation_endpoint, hne]
  rw [hch,
    update_eq_applyTransition store pk "cancelled" uid "guest" (some reason) now r hvalid
      hfound (by simp [permissionGatePasses, hgid]),
    applyTransition_in_table store r "cancelled" (some reason) now htr]
  exact ⟨_, _, rfl, rfl, by simp [transitionedDoc], by simp [transitionedDoc, hne]⟩

/-- Witness for C6: the guest cancels the sample pending reservation with the
reason `"plans changed"` and it is stored verbatim with `cancelled_at`. -/
theorem c6_cancellation_reason_rules_witness :
    ∃ store' r', cancel_reservation_endpoint [sampleRes] "507f1f77bcf86cd799439011"
        "guest-1" "plans changed" (dt 20 0) = .ok (store', r')
      ∧ r'.status = "cancelled"
      ∧ r'.cancelledAt = some (dt 20 0)
      ∧ r'.cancellationReason = some "plans changed" :=
  (c6_cancellation_reason_rules [sampleRes] "507f1f77bcf86cd799439011" "guest-1"
      "plans changed" (dt 20 0) sampleRes).2.2.2
    (by decide) (by decide) (by decide) (by decide) (by decide)

/-- C7: `_validate_dates` fails exactly when the check-out is not after the
check-in, the midnight-normalized check-in is before the midnight-normalized
current date, or the midnight-normalized check-in is more than 365 days
after it; a check-in today at midnight with a later check-out passes, and a
check-in one day in the past is always rejected as in the past. -/
theorem c7_date_validation (now checkIn checkOut : DateTime) :
    ((∃ e, validate_dates now checkIn checkOut = .error e) ↔
      (checkOut.leb checkIn = true ∨ checkIn.day < now.day ∨ checkIn.day > now.day + 365))
    ∧ validate_dates now ⟨now.day, 0⟩ ⟨now.day + 1, 0⟩ = .ok ()
    ∧ (∀ co t, validate_dates now ⟨now.day - 1, t⟩ co = .error .checkInInPast) := by
  refine ⟨?_, ?_, ?_⟩
  · unfold validate_dates
    by_cases h1 : DateTime.ltb (midnightOf checkIn) (midnightOf now) = true
    · rw [if_pos h1]
      simp only [midnightOf, DateTime.ltb_iff] at h1
      exact iff_of_true ⟨_, rfl⟩ (Or.inr (Or.inl (by omega)))
    · rw [if_neg h1]
      by_cases h2 : DateTime.leb checkOut checkIn = true
      · rw [if_pos h2]
        exact iff_of_true ⟨_, rfl⟩ (Or.inl h2)
      · rw [if_neg h2]
        by_cases h3 : DateTime.ltb (addDays (midnightOf now) 365) (midnightOf checkIn) = true
        · rw [if_pos h3]
          simp only [midnightOf, addDays, DateTime.ltb_iff] at h3
          exact iff_of_true ⟨_, rfl⟩ (Or.inr (Or.inr (by omega)))
        · rw [if_neg h3]
          simp only [midnightOf, DateTime.ltb_iff] at h1
          simp only [midnightOf, addDays, DateTime.ltb_iff] at h3
          constructor
          · rintro ⟨e, he⟩
            exact Except.noConfusion he
          · rintro (hd | hd | hd)
            · exact absurd hd h2
            · exact absurd (Or.inl hd) h1
            · exact absurd (Or.inl (by omega)) h3
  · unfold validate_dates
    rw [if_neg (by simp only [midnightOf, DateTime.ltb_iff]; omega),
      if_neg (by simp only [DateTime.leb_iff]; omega),
      if_neg (by simp only [midnightOf, addDays, DateTime.ltb_iff]; omega)]
  · intro co t
    unfold validate_dates
    rw [if_pos (by simp only [midnightOf, DateTime.ltb_iff]; omega)]

/-- When the check-out time of day is at least the check-in time of day and
times of day are below one day (always true of Python datetimes), the floored
tick quotient equals the calendar-day difference. -/
theorem nightsOf_eq_day_sub (ci co : DateTime) (h1 : ci.tod ≤ co.tod)
    (h2 : co.tod < ticksPerDay) : nightsOf ci co = co.day - ci.day := by
  unfold nightsOf ticksPerDay at *
  rw [Int.fdiv_eq_ediv _ (by norm_num)]
  omega

/-- Whatever a successful direct create returns carries the input dates, the
floored-difference `nights`, and `total_price = nights * price_per_night`. -/
theorem create_reservation_ok_shape (hotels : List Hotel) (store : List Reservation)
    (now : DateTime) (input : CreateInput) (gid k rid : String)
    (st : List Reservation) (r : Reservation)
    (hok : create_reservation hotels store now input gid k rid = .ok (st, r)) :
    r.checkIn = input.checkIn ∧ r.checkOut = input.checkOut
    ∧ r.nights = nightsOf input.checkIn input.checkOut
    ∧ r.totalPrice = r.nights * r.pricePerNight := by
  unfold create_reservation at hok
  repeat' split at hok
  all_goals simp_all
  obtain ⟨h1, h2⟩ := hok
  subst h2
  exact ⟨rfl, rfl, rfl, rfl⟩

/-- Same shape fact for the checkout computation path. -/
theorem validate_and_compute_ok_shape (hotels : List Hotel) (store : List Reservation)
    (now : DateTime) (input : CreateInput) (c : ComputedData)
    (hok : validate_and_compute_for_checkout hotels store now input = .ok c) :
    c.checkIn = input.checkIn ∧ c.checkOut = input.checkOut
    ∧ c.nights = nightsOf input.checkIn input.checkOut
    ∧ c.totalPrice = c.nights * c.pricePerNight := by
  unfold validate_and_compute_for_checkout at hok
  repeat' split at hok
  all_goals simp_all
  subst hok
  exact ⟨rfl, rfl, rfl, rfl⟩

/-- A creation request with check-in at noon, used to separate the two
readings of `nights`. -/
def c4Input : CreateInput :=
  { hotelId := "507f191e810c19729de860ea"
    roomId := "room-1"
    checkIn := ⟨10, 43200000000⟩
    checkOut := ⟨13, 0⟩
    numberOfGuests := 1
    specialRequests := ""
    currency := "USD" }

/-- C4 counterexample: a reservation created with check-in at noon of day 10
and check-out at midnight of day 13 is accepted by every validation, yet the
stored `nights` is 2 — `(check_out - check_in).days` floors the exact
datetime difference — while the whole-day date difference
`(check_out.date - check_in.date).days` is 3, so the claimed invariant
`nights == (check_out.date - check_in.date).days` fails on this input. -/
theorem c4_counterexample_nights_not_date_difference :
    (create_reservation [sampleHotel] [] (dt 10 0) c4Input "guest-1"
        "507f1f77bcf86cd799439011" "22222222-2222-2222-2222-222222222222").map
      (fun p => (p.2.nights, p.2.checkOut.day - p.2.checkIn.day)) = .ok (2, 3) := by
  rfl

/-- C4 amended: for every created reservation (direct path and checkout
path), `nights` is the floor of the exact datetime difference in whole days
and `total_price = nights * price_per_night`; whenever the check-out time of
day is at least the check-in time of day (in particular for
midnight-normalized date-only inputs), `nights` coincides with the whole-day
date difference. -/
theorem c4_nights_and_total_price (hotels : List Hotel) (store : List Reservation)
    (now : DateTime) (input : CreateInput) (gid k rid : String) :
    (∀ st r, create_reservation hotels store now input gid k rid = .ok (st, r) →
      r.nights = nightsOf r.checkIn r.checkOut
      ∧ r.totalPrice = r.nights * r.pricePerNight
      ∧ (r.checkIn.tod ≤ r.checkOut.tod → r.checkOut.tod < ticksPerDay →
          r.nights = r.checkOut.day - r.checkIn.day))
    ∧ (∀ c, validate_and_compute_for_checkout hotels store now input = .ok c →
      c.nights = nightsOf c.checkIn c.checkOut
      ∧ c.totalPrice = c.nights * c.pricePerNight
      ∧ (c.checkIn.tod ≤ c.checkOut.tod → c.checkOut.tod < ticksPerDay →
          c.nights = c.checkOut.day - c.checkIn.day)) := by
  constructor
  · intro st r hok
    obtain ⟨h1, h2, h3, h4⟩ :=
      create_reservation_ok_shape hotels store now input gid k rid st r hok
    rw [h1, h2] at *
    exact ⟨h3, h4, fun ht1 ht2 => by rw [h3]; exact nightsOf_eq_day_sub _ _ ht1 ht2⟩
  · intro c hok
    obtain ⟨h1, h2, h3, h4⟩ :=
      validate_and_compute_ok_shape hotels store now input c hok
    rw [h1, h2] at *
    exact ⟨h3, h4, fun ht1 ht2 => by rw [h3]; exact nightsOf_eq_day_sub _ _ ht1 ht2⟩

/-- The spec's scenario input: check-in day 10 (2025-01-10), check-out day 13
(2025-01-13), both at midnight, room price 100. -/
def scenarioInput : CreateInput :=
  { hotelId := "507f191e810c19729de860ea"
    roomId := "room-1"
    checkIn := dt 10 0
    checkOut := dt 13 0
    numberOfGuests := 2
    specialRequests := ""
    currency := "USD" }

/-- Witness for C4 (amended): the scenario reservation is created with
`nights = 3` and `total_price = 300`, and its `nights` matches the whole-day
date difference as the amended claim states. -/
theorem c4_nights_and_total_price_witness :
    ∃ st r, create_reservation [sampleHotel] [] (dt 10 0) scenarioInput "guest-1"
        "507f1f77bcf86cd799439011" "33333333-3333-3333-3333-333333333333" = .ok (st, r)
      ∧ r.nights = 3 ∧ r.totalPrice = 300
      ∧ r.nights = r.checkOut.day - r.checkIn.day := by
  refine ⟨_, _, rfl, by decide, by decide, ?_⟩
  exact ((c4_nights_and_total_price [sampleHotel] [] (dt 10 0) scenarioInput "guest-1"
      "507f1f77bcf86cd799439011" "33333333-3333-3333-3333-333333333333").1 _ _ rfl).2.2
    (by decide) (by decide)

/-- C8: `create_reservation_after_payment` persists the document with
`status = 'pending'` and `payment_status = 'paid'` for every computed-data
bundle, guest, reservation id, and clock — the paid flag is a constant of
the creation path, derived from nothing. -/
theorem c8_payment_status_paid_baked_in (store : List Reservation)
    (computed : ComputedData) (gid rid k : String) (now : DateTime) :
    (create_reservation_after_payment store computed gid rid k now).2.status = "pending"
    ∧ (create_reservation_after_payment store computed gid rid k now).2.paymentStatus = "paid"
    ∧ (create_reservation_after_payment store computed gid rid k now).1 =
        store ++ [(create_reservation_after_payment store computed gid rid k now).2] :=
  ⟨rfl, rfl, rfl⟩

/-- A stored reservation whose `reservation_id` is the UUID the schema's
`uuid.uuid4()` default produces. -/
def sampleResUuid : Reservation :=
  { sampleRes with reservationId := "550e8400-e29b-41d4-a716-446655440000" }

/-- C9 (code bug): `update_reservation_status` evaluates
`ObjectId(reservation_id)` unguarded, so a UUID-format id — the exact format
the `reservation_id` field carries — raises `bson.errors.InvalidId` before
any lookup.  The call therefore does not fail with the NotFound validation
error: it fails outside the `ValueError` taxonomy even when a reservation
with that `reservation_id` exists, which the guarded sibling
`get_reservation_by_id` finds without error. -/
theorem c9_uuid_id_escapes_error_taxonomy :
    update_reservation_status [] "550e8400-e29b-41d4-a716-446655440000" "cancelled"
        "guest-1" "guest" none (dt 0 0) = .error .bsonInvalidId
    ∧ update_reservation_status [sampleResUuid] "550e8400-e29b-41d4-a716-446655440000"
        "cancelled" "guest-1" "guest" (some "reason") (dt 0 0) = .error .bsonInvalidId
    ∧ Err.bsonInvalidId ≠ Err.reservationNotFound
    ∧ get_reservation_by_id [sampleResUuid] "550e8400-e29b-41d4-a716-446655440000" =
        some sampleResUuid :=
  ⟨rfl, rfl, by decide, rfl⟩

end HotelBackend
